import Mathlib

/-!
Verification development for the EcoReport repository.

This file embeds the core operations of the repository in Lean:
the report submission pipeline of the report screens, the feed
query and client-side filter of the home screen, and the comment
fetch / live-change reconciliation / comment creation logic of the
report detail screen.  Machine integers from the source (timestamps
from Date.now) are modelled as Nat; strings are Lean strings;
fallible external calls (object storage upload, signed-url
resolution, metadata insert, auth lookup) are modelled by explicit
environment records whose Boolean flags say whether the external
service fails the call, so that every control path of the source is
a computable branch here.
-/

namespace EcoReport

/-! ## Decimal rendering of timestamps

The source builds object paths with template literals rendering the
value of Date.now in decimal.  We embed that decimal rendering
directly: a fuel-indexed digit extractor (structurally recursive so
that the kernel can evaluate it), its value function, and the
rendered string. -/

/-- Little-endian base-10 digits of n, with explicit fuel for
structural recursion.  Fuel at least n + 1 is always sufficient. -/
def decDigitsF : Nat → Nat → List Nat
  | 0, _ => []
  | fuel + 1, n => if n < 10 then [n] else n % 10 :: decDigitsF fuel (n / 10)

/-- Little-endian base-10 digits of n. -/
def decDigits (n : Nat) : List Nat :=
  decDigitsF (n + 1) n

/-- Value of a little-endian base-10 digit list. -/
def decVal : List Nat → Nat
  | [] => 0
  | d :: ds => d + 10 * decVal ds

/-- Decimal rendering of a natural number, as produced by a
JavaScript template literal for a nonnegative integer. -/
def natDec (n : Nat) : String :=
  ⟨(decDigits n).reverse.map Nat.digitChar⟩

/-! ## JavaScript string primitives

Embeddings of the string operations the screens use: includes,
trim and toLowerCase, defined over the character lists underlying
the strings so that the kernel can evaluate them. -/

/-- Does the list l start with the list pre. -/
def startsWithList : List Char → List Char → Bool
  | _, [] => true
  | [], _ :: _ => false
  | c :: cs, p :: ps => c == p && startsWithList cs ps

/-- Does needle occur contiguously inside hay. -/
def includesList (needle : List Char) : List Char → Bool
  | [] => startsWithList [] needle
  | c :: cs => startsWithList (c :: cs) needle || includesList needle cs

/-- Embedding of hay.includes(needle) on JavaScript strings. -/
def strIncludes (hay needle : String) : Bool :=
  includesList needle.data hay.data

/-- Embedding of the JavaScript String.prototype.trim call: drop
whitespace from both ends of the character list. -/
def trimList (l : List Char) : List Char :=
  ((l.dropWhile Char.isWhitespace).reverse.dropWhile Char.isWhitespace).reverse

/-- Embedding of s.trim() on JavaScript strings. -/
def strTrim (s : String) : String :=
  ⟨trimList s.data⟩

/-- Embedding of s.toLowerCase() on JavaScript strings. -/
def strToLower (s : String) : String :=
  ⟨s.data.map Char.toLower⟩

/-! ## Shared data model -/

/-- A latitude/longitude pair as carried by the screens.  The
coordinate values are never computed with by the embedded code, only
stored and displayed, so they are modelled as integers. -/
structure Loc where
  lat : Int
  lng : Int
deriving DecidableEq, Repr

/-! ## Report submission: the ReportScreen handleSubmit pipeline

Embedding of handleSubmit in src/src/screens/ReportScreen.tsx
(lines 128-214).  External effects are modelled explicitly: the
Supabase session lookup, the object-store upload, the signed-url
resolution and the metadata insert are all driven by a SubmitEnv
record saying whether each external call fails, and the object store
and reports table are a Store record threaded through the call. -/

namespace ReportScreen

/-- One object in the storage bucket: path, uploaded bytes (kept as
the base64 payload the screen decodes and uploads) and content
type. -/
structure StoredObject where
  path : String
  payload : String
  contentType : String
deriving DecidableEq, Repr

/-- The record inserted into the reports table by handleSubmit
(lines 182-191): user_id, image_url, location, category,
description.  Server-assigned columns (id, created_at) are not part
of the insert payload. -/
structure ReportRow where
  user_id : String
  image_url : String
  location : Loc
  category : String
  description : String
deriving DecidableEq, Repr

/-- The external data service state: the storage bucket contents and
the reports table rows. -/
structure Store where
  objects : List StoredObject
  reports : List ReportRow
deriving DecidableEq, Repr

/-- The outcome of one handleSubmit call.  The source distinguishes
these cases by distinct thrown error messages (missing field alert,
login error, upload error, signed-url error, insert error) and by
the success alert. -/
inductive SubmitOutcome where
  | validationError
  | unauthenticated
  | uploadFailed
  | urlFailed
  | persistFailed
  | success (row : ReportRow)
deriving DecidableEq, Repr

/-- The external world as seen by one handleSubmit call: the current
session (none when getSession yields an error or no session), the
Date.now() timestamp, failure switches for the three external calls,
and the url resolver for the uploaded path. -/
structure SubmitEnv where
  session : Option String
  now : Nat
  uploadFails : Bool
  urlFails : Bool
  insertFails : Bool
  resolveUrl : String → String

/-- Line 144 of the screen: the object path is built from the
current time alone. -/
def imagePath (now : Nat) : String :=
  "reports/" ++ natDec now ++ ".jpg"

/-- Embedding of handleSubmit (lines 128-214).  The first branch is
the screen validation (line 129): image, location and category must
all be truthy.  Then the session is re-fetched (line 137), the image
is uploaded (lines 153-164), the url is resolved (lines 169-176) and
the metadata row is inserted (lines 182-196); each failing step
aborts the remaining ones, and nothing ever removes a stored
object. -/
def handleSubmit (image : Option String) (location : Option Loc)
    (category description : String) (env : SubmitEnv) (s : Store) :
    SubmitOutcome × Store :=
  match image, location with
  | some img, some loc =>
    if img == "" || category == "" then
      (.validationError, s)
    else
      match env.session with
      | none => (.unauthenticated, s)
      | some uid =>
        if env.uploadFails then
          (.uploadFailed, s)
        else
          let path := imagePath env.now
          let s1 : Store := { s with objects := s.objects ++ [⟨path, img, "image/jpeg"⟩] }
          if env.urlFails then
            (.urlFailed, s1)
          else if env.insertFails then
            (.persistFailed, s1)
          else
            let row : ReportRow := ⟨uid, env.resolveUrl path, loc, category, description⟩
            (.success row, { s1 with reports := s1.reports ++ [row] })
  | _, _ => (.validationError, s)

/-- A concrete environment for witnesses: a logged-in session, a
fixed clock, and no external failures. -/
def sampleEnv : SubmitEnv :=
  { session := some "u1", now := 1700, uploadFails := false, urlFails := false,
    insertFails := false, resolveUrl := fun p => "https://cdn.example/" ++ p }

/-- sampleEnv with a failing object-store upload. -/
def uploadFailEnv : SubmitEnv :=
  { sampleEnv with uploadFails := true }

/-- sampleEnv with a failing metadata insert. -/
def insertFailEnv : SubmitEnv :=
  { sampleEnv with insertFails := true }

/-- The empty data service state. -/
def emptyStore : Store :=
  { objects := [], reports := [] }

end ReportScreen

/-! ## Report submission: the unnamed ReportScreen variant

Embedding of handleSubmit in src/unnamed/part_002 (lines 123-179).
This screen checks only that an image and a location are present; it
performs no session lookup at all, and the insert (lines 151-161)
sets image_url, location, category and description but no user_id,
so the user_id column of the inserted row is left null. -/

namespace ReportScreenB

/-- A row of the reports table as inserted by this screen.  The
user_id field is an Option because the insert payload does not set
it: the column value is null. -/
structure Row where
  user_id : Option String
  image_url : String
  location : Loc
  category : String
  description : String
deriving DecidableEq, Repr

/-- The data service state seen by this screen. -/
structure Store where
  objects : List ReportScreen.StoredObject
  reports : List Row
deriving DecidableEq, Repr

/-- Outcome of one call, one case per distinct thrown error. -/
inductive Outcome where
  | validationError
  | blobError
  | uploadError
  | insertError
  | success
deriving DecidableEq, Repr

/-- The external world for this screen: the current session (which
the code never consults), the Date.now() timestamp and failure
switches for the blob fetch, the upload and the insert. -/
structure Env where
  session : Option String
  now : Nat
  blobFails : Bool
  uploadFails : Bool
  insertFails : Bool
deriving DecidableEq, Repr

/-- Lines 138-140: the object path is built from the timestamp
alone. -/
def filePath (now : Nat) : String :=
  "reports/" ++ natDec now ++ ".jpg"

/-- Embedding of handleSubmit (part_002 lines 123-179): validation
of image and location (line 124), blob fetch (lines 134-135), upload
(lines 142-148), insert without user_id (lines 151-163).  No step
reads the current identity. -/
def handleSubmit (image : Option String) (location : Option Loc)
    (category description : String) (env : Env) (s : Store) :
    Outcome × Store :=
  match image, location with
  | some img, some loc =>
    if img == "" then
      (.validationError, s)
    else if env.blobFails then
      (.blobError, s)
    else if env.uploadFails then
      (.uploadError, s)
    else
      let path := filePath env.now
      let s1 : Store := { s with objects := s.objects ++ [⟨path, img, "image/jpeg"⟩] }
      if env.insertFails then
        (.insertError, s1)
      else
        let row : Row :=
          { user_id := none, image_url := path, location := loc,
            category := category, description := description }
        (.success, { s1 with reports := s1.reports ++ [row] })
  | _, _ => (.validationError, s)

/-- The constraint the reports table migration
(supabase/migrations/20240402000000_create_reports_table.sql) places
on an inserted row: user_id is declared not null, and the insert
policy accepts the row only when auth.uid() = user_id. -/
def rowMeetsReportsSchema (sessionUid : Option String) (r : Row) : Bool :=
  match r.user_id with
  | none => false
  | some uid => sessionUid == some uid

/-- An environment with no authenticated identity and no external
failures. -/
def noSessionEnv : Env :=
  { session := none, now := 42, blobFails := false, uploadFails := false,
    insertFails := false }

end ReportScreenB

/-! ## Report detail: comments fetch, live reconciliation, creation

Embedding of the comment logic of src/unnamed/part_004
(ReportDetailScreen): fetchComments (lines 116-152), the change
subscription (lines 154-174), the mount effect (lines 62-66) and
handleAddComment (lines 176-207). -/

namespace ReportDetail

/-- The current authenticated user as read from the auth service:
its id and its optional metadata username. -/
structure UserInfo where
  id : String
  username : Option String
deriving DecidableEq, Repr

/-- A row of the comments table. -/
structure CommentRow where
  id : Nat
  report_id : Nat
  user_id : String
  text : String
  created_at : Nat
deriving DecidableEq, Repr

/-- The comment shape held in local screen state: the row fields
plus the display username attached by fetchComments. -/
structure CommentView where
  id : Nat
  text : String
  created_at : Nat
  user_id : String
  username : String
deriving DecidableEq, Repr

/-- Line 132: the display name of the current user, defaulting to
Anonymous when the metadata has none. -/
def currentUsername (user : Option UserInfo) : String :=
  match user with
  | some u => u.username.getD "Anonymous"
  | none => "Anonymous"

/-- Lines 135-145: a fetched row is displayed with the current
username when it belongs to the current user and Anonymous
otherwise. -/
def viewOfRow (user : Option UserInfo) (c : CommentRow) : CommentView :=
  { id := c.id, text := c.text, created_at := c.created_at, user_id := c.user_id,
    username :=
      match user with
      | some u => if c.user_id == u.id then currentUsername user else "Anonymous"
      | none => "Anonymous" }

/-- Ascending created_at comparator of the order-by in the comments
query (line 123). -/
def commentLe (a b : CommentRow) : Bool :=
  a.created_at ≤ b.created_at

/-- The select of fetchComments (lines 119-123): all comment rows of
the given report, ordered ascending by created_at.  The order-by of
the external store is modelled as a merge sort. -/
def fetchCommentsRows (rid : Nat) (db : List CommentRow) : List CommentRow :=
  (db.filter (fun c => c.report_id == rid)).mergeSort commentLe

/-- fetchComments (lines 116-152): the ordered rows of the report,
mapped to their display shape. -/
def fetchComments (rid : Nat) (user : Option UserInfo) (db : List CommentRow) :
    List CommentView :=
  (fetchCommentsRows rid db).map (viewOfRow user)

/-- A change-feed notification for the comments table.  The payload
carries whatever the feed delivered; the subscription handler never
reads it. -/
inductive ChangeEvent where
  | insertEv (row : CommentRow)
  | updateEv (row : CommentRow)
  | deleteEv (rowId : Nat)
deriving DecidableEq, Repr

/-- The subscription callback (lines 165-167): on any event, ignore
the payload and refetch the full list; when the refetch fails
(lines 125-128) the local list is left as it was. -/
def onCommentsChange (rid : Nat) (ev : ChangeEvent) (user : Option UserInfo)
    (fetchFails : Bool) (db : List CommentRow) (localComments : List CommentView) :
    List CommentView :=
  if fetchFails then localComments else fetchComments rid user db

/-- Outcome of one handleAddComment call: the silent early return on
a blank draft, a thrown auth lookup, a missing identity, a failed
insert, or success. -/
inductive AddOutcome where
  | validationFailed
  | thrownError
  | unauthenticated
  | insertFailed
  | success
deriving DecidableEq, Repr

/-- The local screen state touched by handleAddComment: the draft
text, the displayed comment list and the error banner. -/
structure DetailState where
  newComment : String
  comments : List CommentView
  errorMsg : Option String
deriving DecidableEq, Repr

/-- The external world for one handleAddComment call: the current
user, whether the auth lookup throws, whether the insert fails, and
the server-assigned id and timestamp of the new row. -/
structure AddEnv where
  user : Option UserInfo
  getUserThrows : Bool
  insertFails : Bool
  newId : Nat
  now : Nat
deriving DecidableEq, Repr

/-- Embedding of handleAddComment (lines 176-207): blank-after-trim
drafts return before any network call (line 177); a thrown auth
lookup or a missing identity or a failed insert set the error banner
and leave the draft; on success the trimmed text is inserted, the
draft is cleared (line 199) and the list is refetched (line 200). -/
def handleAddComment (rid : Nat) (env : AddEnv) (st : DetailState)
    (db : List CommentRow) : AddOutcome × DetailState × List CommentRow :=
  if strTrim st.newComment == "" then
    (.validationFailed, st, db)
  else if env.getUserThrows then
    (.thrownError, { st with errorMsg := some "Failed to add comment" }, db)
  else
    match env.user with
    | none => (.unauthenticated, { st with errorMsg := some "Please sign in to comment" }, db)
    | some u =>
      if env.insertFails then
        (.insertFailed, { st with errorMsg := some "Failed to add comment" }, db)
      else
        let row : CommentRow :=
          { id := env.newId, report_id := rid, user_id := u.id,
            text := strTrim st.newComment, created_at := env.now }
        let db2 := db ++ [row]
        (.success, { st with newComment := "",
                             comments := fetchComments rid env.user db2 }, db2)

/-- subscribeToComments (lines 154-174): open one change channel
filtered to the given report id, and hand back a closure that would
remove it again.  Channels are identified by the report id they
filter on. -/
def subscribeToComments (rid : Nat) (channels : List Nat) :
    List Nat × (List Nat → List Nat) :=
  (channels ++ [rid], fun cs => cs.erase rid)

/-- The mount effect (lines 62-66): it runs fetchReport,
fetchComments and subscribeToComments, and hands no cleanup back to
the framework: the closure subscribeToComments produces is
discarded, so nothing is registered to run on unmount. -/
def mountEffect (rid : Nat) (channels : List Nat) :
    List Nat × Option (List Nat → List Nat) :=
  ((subscribeToComments rid channels).1, none)

/-- Unmounting the view runs the registered cleanup when there is
one and does nothing otherwise. -/
def unmountEffect (channels : List Nat) (cleanup : Option (List Nat → List Nat)) :
    List Nat :=
  match cleanup with
  | some f => f channels
  | none => channels

/-- Number of live comment channels for a report id. -/
def activeChannels (rid : Nat) (channels : List Nat) : Nat :=
  (channels.filter (fun c => c == rid)).length

/-- A concrete no-failure environment for witnesses. -/
def sampleAddEnv : AddEnv :=
  { user := some { id := "u1", username := some "alice" },
    getUserThrows := false, insertFails := false, newId := 5, now := 99 }

/-- A local state whose draft is whitespace only. -/
def blankDraftState : DetailState :=
  { newComment := "   ", comments := [], errorMsg := none }

end ReportDetail

/-! ## Feed query and filter: the HomeScreen

Embedding of fetchReports (src/src/screens/HomeScreen.tsx lines
58-96) and filterReports (lines 98-125). -/

namespace HomeScreen

/-- A fetched row of the reports table as the home screen sees it.
The description column is nullable; the screen guards it with
optional chaining. -/
structure ReportRow where
  id : Nat
  user_id : String
  image_url : String
  location : Loc
  category : String
  description : Option String
  created_at : Nat
deriving DecidableEq, Repr

/-- Descending created_at comparator of the order-by in the reports
query (line 67). -/
def newestFirst (a b : ReportRow) : Bool :=
  b.created_at ≤ a.created_at

/-- The select of fetchReports (lines 64-67): all rows of the
reports table ordered by created_at descending, modelled as a merge
sort with the newest-first comparator. -/
def fetchReportsRows (db : List ReportRow) : List ReportRow :=
  db.mergeSort newestFirst

/-- The text test of filterReports (lines 102-107): the lowercased
description, when present, or the lowercased category must contain
the lowercased query as a substring. -/
def matchesSearch (q : String) (r : ReportRow) : Bool :=
  (match r.description with
   | some d => strIncludes (strToLower d) (strToLower q)
   | none => false)
  || strIncludes (strToLower r.category) (strToLower q)

/-- The category table of the screen (lines 41-46), as id and label
pairs. -/
def CATEGORIES : List (String × String) :=
  [("pollution", "Pollution"), ("deforestation", "Deforestation"),
   ("waste", "Illegal Waste"), ("other", "Other")]

/-- filterReports (lines 98-125): apply the text filter when the
query is nonempty, then the category filter when a category label is
selected. -/
def filterReports (searchQuery : String) (selectedCategory : Option String)
    (reports : List ReportRow) : List ReportRow :=
  let afterText :=
    if searchQuery == "" then reports else reports.filter (matchesSearch searchQuery)
  match selectedCategory with
  | none => afterText
  | some label =>
    let categoryId := (CATEGORIES.find? (fun p => p.2 == label)).map (fun p => p.1)
    afterText.filter (fun r =>
      match categoryId with
      | some cid => strToLower r.category == strToLower cid
      | none => false)

/-- The feed produced for a given text query: full fetch ordered
newest first, then the client-side filter. -/
def listReports (searchQuery : String) (selectedCategory : Option String)
    (db : List ReportRow) : List ReportRow :=
  filterReports searchQuery selectedCategory (fetchReportsRows db)

/-- The predicate of the feed-filter claim, stated from the spec
words: the description or the category contains the filter string
case-insensitively as a contiguous substring. -/
def textMatchSpec (q : String) (r : ReportRow) : Prop :=
  (∃ d, r.description = some d ∧
    ∃ pre post, (strToLower d).data = pre ++ (strToLower q).data ++ post)
  ∨ ∃ pre post, (strToLower r.category).data = pre ++ (strToLower q).data ++ post

end HomeScreen

/-! ## Helper lemmas -/

theorem decVal_decDigitsF (fuel n : Nat) (h : n < fuel) :
    decVal (decDigitsF fuel n) = n := by
  induction fuel generalizing n with
  | zero => omega
  | succ fuel ih =>
    rw [decDigitsF]
    by_cases h10 : n < 10
    · simp [h10, decVal]
    · have hdiv : n / 10 < fuel := by
        have := Nat.div_lt_self (by omega : 0 < n) (by omega : 1 < 10)
        omega
      simp only [h10, if_false, decVal, ih (n / 10) hdiv]
      omega

theorem decVal_decDigits (n : Nat) : decVal (decDigits n) = n :=
  decVal_decDigitsF (n + 1) n (Nat.lt_succ_self n)

theorem decDigits_injective : Function.Injective decDigits := by
  intro a b h
  have := decVal_decDigits a
  rw [h, decVal_decDigits] at this
  omega

theorem decDigitsF_lt_ten (fuel n : Nat) : ∀ d ∈ decDigitsF fuel n, d < 10 := by
  induction fuel generalizing n with
  | zero => simp [decDigitsF]
  | succ fuel ih =>
    rw [decDigitsF]
    by_cases h10 : n < 10
    · intro d hd
      simp [h10] at hd
      omega
    · simp only [h10, if_false, List.mem_cons]
      intro d hd
      rcases hd with hd | hd
      · omega
      · exact ih (n / 10) d hd

theorem digitChar_inj_lt_ten :
    ∀ a < 10, ∀ b < 10, Nat.digitChar a = Nat.digitChar b → a = b := by
  decide

theorem map_digitChar_inj :
    ∀ l₁ l₂ : List Nat, (∀ d ∈ l₁, d < 10) → (∀ d ∈ l₂, d < 10) →
      l₁.map Nat.digitChar = l₂.map Nat.digitChar → l₁ = l₂ := by
  intro l₁
  induction l₁ with
  | nil =>
    intro l₂ _ _ h
    cases l₂ with
    | nil => rfl
    | cons b bs => simp at h
  | cons a as ih =>
    intro l₂ h₁ h₂ h
    cases l₂ with
    | nil => simp at h
    | cons b bs =>
      simp only [List.map_cons, List.cons.injEq] at h
      have ha : a = b :=
        digitChar_inj_lt_ten a (h₁ a (by simp)) b (h₂ b (by simp)) h.1
      have has : as = bs :=
        ih bs (fun d hd => h₁ d (by simp [hd])) (fun d hd => h₂ d (by simp [hd])) h.2
      rw [ha, has]

theorem natDec_injective : Function.Injective natDec := by
  intro a b h
  have hd : (decDigits a).reverse.map Nat.digitChar
      = (decDigits b).reverse.map Nat.digitChar :=
    congrArg String.data h
  have hrev : (decDigits a).reverse = (decDigits b).reverse :=
    map_digitChar_inj _ _
      (fun d hd2 => decDigitsF_lt_ten _ _ d (List.mem_reverse.mp hd2))
      (fun d hd2 => decDigitsF_lt_ten _ _ d (List.mem_reverse.mp hd2))
      hd
  exact decDigits_injective (List.reverse_injective hrev)

theorem startsWithList_iff (pre : List Char) :
    ∀ l : List Char, startsWithList l pre = true ↔ ∃ post, l = pre ++ post := by
  induction pre with
  | nil =>
    intro l
    simp [startsWithList]
  | cons p ps ih =>
    intro l
    cases l with
    | nil =>
      simp [startsWithList]
    | cons c cs =>
      simp only [startsWithList, Bool.and_eq_true, beq_iff_eq, ih cs,
        List.cons_append, List.cons.injEq]
      constructor
      · rintro ⟨hc, post, hpost⟩
        exact ⟨post, hc, hpost⟩
      · rintro ⟨post, hc, hpost⟩
        exact ⟨hc, post, hpost⟩

theorem includesList_iff (needle : List Char) :
    ∀ hay : List Char,
      includesList needle hay = true ↔ ∃ pre post, hay = pre ++ needle ++ post := by
  intro hay
  induction hay with
  | nil =>
    simp only [includesList, startsWithList_iff]
    constructor
    · rintro ⟨post, hpost⟩
      exact ⟨[], post, by simpa using hpost⟩
    · rintro ⟨pre, post, h⟩
      have h2 := h.symm
      rw [List.append_assoc] at h2
      rcases List.append_eq_nil.mp h2 with ⟨hpre, hrest⟩
      rcases List.append_eq_nil.mp hrest with ⟨hneedle, hpost⟩
      exact ⟨[], by simp [hneedle, hpost]⟩
  | cons c cs ih =>
    simp only [includesList, Bool.or_eq_true, startsWithList_iff, ih]
    constructor
    · rintro (⟨post, hpost⟩ | ⟨pre, post, h⟩)
      · exact ⟨[], post, by simpa using hpost⟩
      · exact ⟨c :: pre, post, by simp [h]⟩
    · rintro ⟨pre, post, h⟩
      cases pre with
      | nil =>
        left
        exact ⟨post, by simpa using h⟩
      | cons p ps =>
        right
        simp only [List.cons_append, List.cons.injEq] at h
        exact ⟨ps, post, h.2⟩

theorem imagePath_injective : Function.Injective ReportScreen.imagePath := by
  intro a b h
  unfold ReportScreen.imagePath at h
  have h1 : ("reports/".data ++ (natDec a).data) ++ ".jpg".data
      = ("reports/".data ++ (natDec b).data) ++ ".jpg".data := by
    simpa using congrArg String.data h
  have h2 := List.append_cancel_left (List.append_cancel_right h1)
  exact natDec_injective (by simpa using congrArg String.mk h2)

theorem matchesSearch_iff (q : String) (r : HomeScreen.ReportRow) :
    HomeScreen.matchesSearch q r = true ↔ HomeScreen.textMatchSpec q r := by
  unfold HomeScreen.matchesSearch HomeScreen.textMatchSpec strIncludes
  cases hd : r.description with
  | none =>
    simp [includesList_iff]
  | some d =>
    simp [includesList_iff]

theorem textMatchSpec_empty (r : HomeScreen.ReportRow) :
    HomeScreen.textMatchSpec "" r :=
  Or.inr ⟨[], (strToLower r.category).data, by simp [strToLower]⟩

theorem commentLe_trans (a b c : ReportDetail.CommentRow) :
    ReportDetail.commentLe a b → ReportDetail.commentLe b c →
      ReportDetail.commentLe a c := by
  simp only [ReportDetail.commentLe, decide_eq_true_eq]
  omega

theorem commentLe_total (a b : ReportDetail.CommentRow) :
    ReportDetail.commentLe a b || ReportDetail.commentLe b a := by
  simp only [ReportDetail.commentLe, Bool.or_eq_true, decide_eq_true_eq]
  omega

theorem newestFirst_trans (a b c : HomeScreen.ReportRow) :
    HomeScreen.newestFirst a b → HomeScreen.newestFirst b c →
      HomeScreen.newestFirst a c := by
  simp only [HomeScreen.newestFirst, decide_eq_true_eq]
  omega

theorem newestFirst_total (a b : HomeScreen.ReportRow) :
    HomeScreen.newestFirst a b || HomeScreen.newestFirst b a := by
  simp only [HomeScreen.newestFirst, Bool.or_eq_true, decide_eq_true_eq]
  omega

/-! ## Claim theorems -/

/-- C1: when the object-store upload fails, handleSubmit aborts
before the metadata insert: the reports table is unchanged and the
outcome is never a success. -/
theorem C1_upload_failure_no_partial_record
    (image : Option String) (location : Option Loc) (category description : String)
    (env : ReportScreen.SubmitEnv) (s : ReportScreen.Store)
    (h : env.uploadFails = true) :
    ((ReportScreen.handleSubmit image location category description env s).2.reports
      = s.reports)
    ∧ ∀ row, (ReportScreen.handleSubmit image location category description env s).1
        ≠ ReportScreen.SubmitOutcome.success row := by
  unfold ReportScreen.handleSubmit
  rcases image with _ | img <;> rcases location with _ | loc <;>
    (repeat' split) <;> simp_all

/-- C1 witness: a concrete submission against a failing upload
creates no report row and is not a success. -/
theorem C1_upload_failure_witness :
    ((ReportScreen.handleSubmit (some "img64") (some ⟨1, 2⟩) "Pollution" "d"
        ReportScreen.uploadFailEnv ReportScreen.emptyStore).2.reports = [])
    ∧ ∀ row, (ReportScreen.handleSubmit (some "img64") (some ⟨1, 2⟩) "Pollution" "d"
        ReportScreen.uploadFailEnv ReportScreen.emptyStore).1
        ≠ ReportScreen.SubmitOutcome.success row :=
  C1_upload_failure_no_partial_record (some "img64") (some ⟨1, 2⟩) "Pollution" "d"
    ReportScreen.uploadFailEnv ReportScreen.emptyStore rfl

/-- C2: when the upload succeeds and the metadata insert fails, the
outcome is persistFailed, which is distinct from uploadFailed; the
uploaded object is still in storage; and no report row was
created. -/
theorem C2_insert_failure_persistFailed_object_remains
    (img : String) (loc : Loc) (category description : String)
    (env : ReportScreen.SubmitEnv) (s : ReportScreen.Store) (uid : String)
    (hsess : env.session = some uid) (himg : img ≠ "") (hcat : category ≠ "")
    (hup : env.uploadFails = false) (hurl : env.urlFails = false)
    (hins : env.insertFails = true) :
    ((ReportScreen.handleSubmit (some img) (some loc) category description env s).1
      = ReportScreen.SubmitOutcome.persistFailed)
    ∧ ReportScreen.SubmitOutcome.persistFailed ≠ ReportScreen.SubmitOutcome.uploadFailed
    ∧ (⟨ReportScreen.imagePath env.now, img, "image/jpeg"⟩ : ReportScreen.StoredObject)
        ∈ (ReportScreen.handleSubmit (some img) (some loc) category description env s).2.objects
    ∧ (ReportScreen.handleSubmit (some img) (some loc) category description env s).2.reports
        = s.reports := by
  have h1 : (img == "") = false := by simpa using himg
  have h2 : (category == "") = false := by simpa using hcat
  unfold ReportScreen.handleSubmit
  simp [h1, h2, hsess, hup, hurl, hins]

/-- C2 witness: a concrete submission against a failing insert. -/
theorem C2_insert_failure_witness :
    ((ReportScreen.handleSubmit (some "img64") (some ⟨1, 2⟩) "Pollution" "d"
        ReportScreen.insertFailEnv ReportScreen.emptyStore).1
      = ReportScreen.SubmitOutcome.persistFailed)
    ∧ ReportScreen.SubmitOutcome.persistFailed ≠ ReportScreen.SubmitOutcome.uploadFailed
    ∧ (⟨ReportScreen.imagePath 1700, "img64", "image/jpeg"⟩ : ReportScreen.StoredObject)
        ∈ (ReportScreen.handleSubmit (some "img64") (some ⟨1, 2⟩) "Pollution" "d"
            ReportScreen.insertFailEnv ReportScreen.emptyStore).2.objects
    ∧ (ReportScreen.handleSubmit (some "img64") (some ⟨1, 2⟩) "Pollution" "d"
        ReportScreen.insertFailEnv ReportScreen.emptyStore).2.reports = [] :=
  C2_insert_failure_persistFailed_object_remains "img64" ⟨1, 2⟩ "Pollution" "d"
    ReportScreen.insertFailEnv ReportScreen.emptyStore "u1" rfl (by decide) (by decide)
    rfl rfl rfl

/-- C3 counterexample: submitting a valid image and category with no
location does not succeed; the screen validation rejects the call
and no report is created, refuting the claim that location is never
required. -/
theorem C3_location_omitted_counterexample :
    ((ReportScreen.handleSubmit (some "img64") none "Pollution" ""
        ReportScreen.sampleEnv ReportScreen.emptyStore).1
      = ReportScreen.SubmitOutcome.validationError)
    ∧ (ReportScreen.handleSubmit (some "img64") none "Pollution" ""
        ReportScreen.sampleEnv ReportScreen.emptyStore).2.reports = [] :=
  ⟨rfl, rfl⟩

/-- C3 amended: handleSubmit requires a location: whenever the
location is omitted the call fails with the validation error before
any session check, upload or insert, and the data service state is
untouched. -/
theorem C3_location_required
    (image : Option String) (category description : String)
    (env : ReportScreen.SubmitEnv) (s : ReportScreen.Store) :
    ReportScreen.handleSubmit image none category description env s
      = (ReportScreen.SubmitOutcome.validationError, s) := by
  cases image <;> rfl

/-- C4: after any change-feed event, whatever its payload and
whatever the prior local list, the local comment list equals the
fresh full fetch: exactly the rows of that report, displayed, and
ordered ascending by created_at. -/
theorem C4_change_event_reconciliation (rid : Nat) (ev : ReportDetail.ChangeEvent)
    (user : Option ReportDetail.UserInfo) (db : List ReportDetail.CommentRow)
    (localComments : List ReportDetail.CommentView) :
    (ReportDetail.onCommentsChange rid ev user false db localComments
      = ReportDetail.fetchComments rid user db)
    ∧ (∀ v, v ∈ ReportDetail.onCommentsChange rid ev user false db localComments ↔
        ∃ c, c ∈ db ∧ c.report_id = rid ∧ v = ReportDetail.viewOfRow user c)
    ∧ List.Pairwise (fun a b : ReportDetail.CommentView => a.created_at ≤ b.created_at)
        (ReportDetail.onCommentsChange rid ev user false db localComments) := by
  refine ⟨rfl, ?_, ?_⟩
  · intro v
    simp only [ReportDetail.onCommentsChange, if_neg (by simp : ¬(false = true)),
      ReportDetail.fetchComments, ReportDetail.fetchCommentsRows, List.mem_map,
      List.mem_mergeSort, List.mem_filter, beq_iff_eq]
    constructor
    · rintro ⟨c, ⟨hc, hrid⟩, hv⟩
      exact ⟨c, hc, hrid, hv.symm⟩
    · rintro ⟨c, hc, hrid, hv⟩
      exact ⟨c, ⟨hc, hrid⟩, hv.symm⟩
  · have hs : List.Pairwise (fun a b => ReportDetail.commentLe a b)
        (ReportDetail.fetchCommentsRows rid db) :=
      List.sorted_mergeSort commentLe_trans commentLe_total _
    have hmono : ∀ a b : ReportDetail.CommentRow, ReportDetail.commentLe a b →
        (ReportDetail.viewOfRow user a).created_at
          ≤ (ReportDetail.viewOfRow user b).created_at := by
      intro a b hab
      simp only [ReportDetail.commentLe, decide_eq_true_eq] at hab
      simpa [ReportDetail.viewOfRow] using hab
    have hmap : List.Pairwise
        (fun a b : ReportDetail.CommentView => a.created_at ≤ b.created_at)
        ((ReportDetail.fetchCommentsRows rid db).map (ReportDetail.viewOfRow user)) :=
      List.Pairwise.map _ hmono hs
    simpa [ReportDetail.onCommentsChange, ReportDetail.fetchComments] using hmap

/-- C5: a draft that is empty after trimming makes handleAddComment
return the validation outcome with the state and the comments table
unchanged: no insert happens. -/
theorem C5_blank_comment_rejected
    (rid : Nat) (env : ReportDetail.AddEnv) (st : ReportDetail.DetailState)
    (db : List ReportDetail.CommentRow)
    (h : strTrim st.newComment = "") :
    ReportDetail.handleAddComment rid env st db
      = (ReportDetail.AddOutcome.validationFailed, st, db) := by
  unfold ReportDetail.handleAddComment
  simp [h]

/-- C5 witness: a whitespace-only draft is rejected with no
insert. -/
theorem C5_blank_comment_witness :
    ReportDetail.handleAddComment 1 ReportDetail.sampleAddEnv
        ReportDetail.blankDraftState []
      = (ReportDetail.AddOutcome.validationFailed, ReportDetail.blankDraftState, []) :=
  C5_blank_comment_rejected 1 ReportDetail.sampleAddEnv ReportDetail.blankDraftState []
    (by decide)

/-- C6: re-entering the report view accumulates live comment
channels: the mount effect discards the unsubscribe closure, so
after one enter and exit cycle followed by a second entry two
channels for the report are live, not one. -/
theorem C6_subscriptions_accumulate :
    ReportDetail.activeChannels 7
      (ReportDetail.mountEffect 7
        (ReportDetail.unmountEffect (ReportDetail.mountEffect 7 []).1
          (ReportDetail.mountEffect 7 []).2)).1 = 2 := by
  rfl

/-- C7: the part_002 submit pipeline never consults the identity: a
call with no session still uploads the object and inserts a row, and
the inserted row has a null user_id, violating the not-null and
owner-check constraints of the reports table migration. -/
theorem C7_no_identity_check_null_user_id :
    ((ReportScreenB.handleSubmit (some "file:img") (some ⟨1, 2⟩) "pollution" ""
        ReportScreenB.noSessionEnv ⟨[], []⟩).1 = ReportScreenB.Outcome.success)
    ∧ ((ReportScreenB.handleSubmit (some "file:img") (some ⟨1, 2⟩) "pollution" ""
        ReportScreenB.noSessionEnv ⟨[], []⟩).2.objects ≠ [])
    ∧ (∀ r ∈ (ReportScreenB.handleSubmit (some "file:img") (some ⟨1, 2⟩) "pollution" ""
        ReportScreenB.noSessionEnv ⟨[], []⟩).2.reports, r.user_id = none)
    ∧ (∀ r ∈ (ReportScreenB.handleSubmit (some "file:img") (some ⟨1, 2⟩) "pollution" ""
        ReportScreenB.noSessionEnv ⟨[], []⟩).2.reports,
        ReportScreenB.rowMeetsReportsSchema ReportScreenB.noSessionEnv.session r = false) := by
  decide

/-- C8: for every fetched report set and text filter, the feed is
exactly the rows whose description or category contains the filter
case-insensitively, ordered newest first by created_at. -/
theorem C8_feed_text_filter (q : String) (db : List HomeScreen.ReportRow) :
    (∀ r, r ∈ HomeScreen.listReports q none db ↔
      r ∈ db ∧ HomeScreen.textMatchSpec q r)
    ∧ List.Pairwise (fun a b : HomeScreen.ReportRow => b.created_at ≤ a.created_at)
        (HomeScreen.listReports q none db) := by
  have hsorted : List.Pairwise (fun a b => HomeScreen.newestFirst a b)
      (HomeScreen.fetchReportsRows db) :=
    List.sorted_mergeSort newestFirst_trans newestFirst_total _
  have hsorted2 : List.Pairwise
      (fun a b : HomeScreen.ReportRow => b.created_at ≤ a.created_at)
      (HomeScreen.fetchReportsRows db) := by
    refine hsorted.imp ?_
    intro a b hab
    simpa [HomeScreen.newestFirst] using hab
  by_cases hq : q = ""
  · subst hq
    constructor
    · intro r
      simp only [HomeScreen.listReports, HomeScreen.filterReports,
        if_pos (by rfl : ("" == "") = true), HomeScreen.fetchReportsRows,
        List.mem_mergeSort]
      exact ⟨fun hr => ⟨hr, textMatchSpec_empty r⟩, fun hr => hr.1⟩
    · simpa [HomeScreen.listReports, HomeScreen.filterReports] using hsorted2
  · have hq2 : (q == "") = false := by simpa using hq
    constructor
    · intro r
      simp only [HomeScreen.listReports, HomeScreen.filterReports, hq2,
        Bool.false_eq_true, if_false, List.mem_filter, HomeScreen.fetchReportsRows,
        List.mem_mergeSort, matchesSearch_iff]
    · simp only [HomeScreen.listReports, HomeScreen.filterReports, hq2,
        Bool.false_eq_true, if_false]
      exact hsorted2.filter _

/-- C9 counterexample: a concrete successful submission stores its
object at reports/1700.jpg, not at the claimed u1/1700.jpg built
from the acting identity id u1. -/
theorem C9_path_shape_counterexample :
    ((ReportScreen.handleSubmit (some "img64") (some ⟨1, 2⟩) "Pollution" "d"
        ReportScreen.sampleEnv ReportScreen.emptyStore).2.objects
      = [⟨ReportScreen.imagePath 1700, "img64", "image/jpeg"⟩])
    ∧ ReportScreen.imagePath 1700 = "reports/1700.jpg"
    ∧ ReportScreen.imagePath 1700 ≠ "u1/1700.jpg" := by
  refine ⟨rfl, rfl, ?_⟩
  decide

/-- C9 amended: the object path is derived deterministically from
the current time alone, in the form reports/timestampMillis.jpg with
no identity component; distinct submission times still give distinct
paths, so retried uploads never collide. -/
theorem C9_path_from_time_only
    (img : String) (loc : Loc) (category description : String)
    (env : ReportScreen.SubmitEnv) (s : ReportScreen.Store) (uid : String)
    (hsess : env.session = some uid) (himg : img ≠ "") (hcat : category ≠ "")
    (hup : env.uploadFails = false) :
    ((ReportScreen.handleSubmit (some img) (some loc) category description env s).2.objects
      = s.objects ++ [⟨ReportScreen.imagePath env.now, img, "image/jpeg"⟩])
    ∧ ∀ t₁ t₂ : Nat, t₁ ≠ t₂ →
        ReportScreen.imagePath t₁ ≠ ReportScreen.imagePath t₂ := by
  constructor
  · have h1 : (img == "") = false := by simpa using himg
    have h2 : (category == "") = false := by simpa using hcat
    unfold ReportScreen.handleSubmit
    simp only [h1, h2, Bool.or_self, Bool.false_eq_true, if_false, hsess, hup]
    (repeat' split) <;> rfl
  · intro t₁ t₂ hne heq
    exact hne (imagePath_injective heq)

/-- C9 amended witness: the concrete upload path and a concrete pair
of distinct times with distinct paths. -/
theorem C9_path_from_time_only_witness :
    ((ReportScreen.handleSubmit (some "img64") (some ⟨1, 2⟩) "Pollution" "d"
        ReportScreen.sampleEnv ReportScreen.emptyStore).2.objects
      = [⟨ReportScreen.imagePath 1700, "img64", "image/jpeg"⟩])
    ∧ ReportScreen.imagePath 3 ≠ ReportScreen.imagePath 5 := by
  refine ⟨?_, ?_⟩
  · have h := C9_path_from_time_only "img64" ⟨1, 2⟩ "Pollution" "d"
      ReportScreen.sampleEnv ReportScreen.emptyStore "u1" rfl (by decide) (by decide) rfl
    simpa using h.1
  · exact (C9_path_from_time_only "img64" ⟨1, 2⟩ "Pollution" "d"
      ReportScreen.sampleEnv ReportScreen.emptyStore "u1" rfl (by decide) (by decide)
      rfl).2 3 5 (by decide)

/-- C10: a failing handleAddComment call leaves the draft text
unchanged; the draft is cleared exactly when the insert
succeeded. -/
theorem C10_draft_cleared_only_on_success
    (rid : Nat) (env : ReportDetail.AddEnv) (st : ReportDetail.DetailState)
    (db : List ReportDetail.CommentRow) :
    ((ReportDetail.handleAddComment rid env st db).1 ≠ ReportDetail.AddOutcome.success →
      (ReportDetail.handleAddComment rid env st db).2.1.newComment = st.newComment)
    ∧ ((ReportDetail.handleAddComment rid env st db).1 = ReportDetail.AddOutcome.success →
      (ReportDetail.handleAddComment rid env st db).2.1.newComment = "") := by
  unfold ReportDetail.handleAddComment
  repeat' split <;> simp_all

/-- C10 witness: a concrete failing call (blank draft) leaves the
draft untouched. -/
theorem C10_draft_preserved_witness :
    (ReportDetail.handleAddComment 1 ReportDetail.sampleAddEnv
        ReportDetail.blankDraftState []).2.1.newComment
      = ReportDetail.blankDraftState.newComment :=
  (C10_draft_cleared_only_on_success 1 ReportDetail.sampleAddEnv
    ReportDetail.blankDraftState []).1 (by decide)

end EcoReport
